import Mathlib

/-!
Verification of the polymock browser client's session/authentication core.

The definitions below are a shallow embedding of:
  * the zustand auth store (`useAuthStore`, file `stores/authStore.ts`,
    shipped inline after `MarketsGrid.tsx`): state fields `token`, `user`,
    `isAuthenticated` and the mutators `login`, `logout`, `setUser`,
    plus the startup helpers `getStoredToken` / `getStoredUser`;
  * the axios interceptors of `lib/api.ts`: the request interceptor that
    attaches `Authorization: Bearer <token>` when the token is truthy, and
    the response interceptor that calls `logout()` on any 401 response and
    re-raises the original error;
  * the mutation flows of `pages/AuthPage.tsx` (login form = Flow A,
    register form = Flow B) and `pages/ProfilePage.tsx` (profile update =
    Flow C, password change = Flow D).

Modelling conventions:
  * `localStorage` is a record with one field per key used by the store
    (`polymock_token`, `polymock_user`).  The user slot holds the `User`
    value itself: the source stores `JSON.stringify(user)` and reads it back
    with `JSON.parse`, which is the identity on these records, and the
    store's own writes never produce a corrupt slot.  The token slot holds
    the raw string exactly as the source does, so JavaScript truthiness of
    the stored token (`!!getStoredToken()`, empty string falsy) is modelled
    explicitly.
  * JavaScript numbers carried by `User` (`id`, `balance`) are modelled as
    `Int`: the session core never computes with them, it only stores and
    compares them.
  * A network call's outcome is an `Except ApiFailure α`; the store effect
    of the axios response interceptor on a failure is `apply401`, and every
    flow step threads its response through it, exactly as every source call
    goes through the shared `api` instance.
  * Asynchronous callbacks are sequenced in source order (the flows await
    each step before the next); there is no concurrency in the modelled
    code paths.
-/

namespace Polymock

/-- The `theme` field of a user profile (`"dark" | "light"`). -/
inductive Theme where
  | dark
  | light
deriving DecidableEq, Repr

/-- The `User` interface of `stores/authStore.ts`. -/
structure User where
  id : Int
  username : String
  balance : Int
  is_admin : Bool
  avatar_url : Option String
  theme : Theme
  email_notifications : Bool
deriving DecidableEq, Repr

/-- The two localStorage slots used by the auth store:
`polymock_token` (raw string) and `polymock_user` (serialized `User`). -/
structure LocalStorage where
  tokenSlot : Option String
  userSlot : Option User
deriving DecidableEq, Repr

/-- localStorage with neither key present (fresh install). -/
def emptyStorage : LocalStorage := { tokenSlot := none, userSlot := none }

/-- The in-memory fields of the zustand auth store (`AuthState`). -/
structure AuthState where
  token : Option String
  user : Option User
  isAuthenticated : Bool
deriving DecidableEq, Repr

/-- A store snapshot: in-memory state paired with the durable storage. -/
abbrev Store := AuthState × LocalStorage

/-- `getStoredToken()`: returns `localStorage.getItem(TOKEN_KEY)` verbatim. -/
def getStoredToken (ls : LocalStorage) : Option String := ls.tokenSlot

/-- `getStoredUser()`: parses the stored user; the store's own writes are
always well-formed, so this is the slot's content. -/
def getStoredUser (ls : LocalStorage) : Option User := ls.userSlot

/-- JavaScript truthiness of a `string | null` value:
`null` and the empty string are falsy. -/
def truthy : Option String → Bool
  | none => false
  | some s => !(s == "")

/-- The auth store's initial in-memory state, built at module load:
`token: getStoredToken(), user: getStoredUser(),
isAuthenticated: !!getStoredToken()`. -/
def initAuthState (ls : LocalStorage) : AuthState :=
  { token := getStoredToken ls
    user := getStoredUser ls
    isAuthenticated := truthy (getStoredToken ls) }

/-- A fresh store created over the given persisted storage. -/
def initStoreFrom (ls : LocalStorage) : Store := (initAuthState ls, ls)

/-- The store's initial state over empty storage (first ever launch). -/
def initialStore : Store := initStoreFrom emptyStorage

/-- `login(token, user)`: writes both localStorage slots, then sets
`{ token, user, isAuthenticated: true }`. -/
def loginStore (t : String) (u : User) (_s : Store) : Store :=
  ({ token := some t, user := some u, isAuthenticated := true },
   { tokenSlot := some t, userSlot := some u })

/-- `logout()`: removes both localStorage keys, then sets
`{ token: null, user: null, isAuthenticated: false }`. -/
def logoutStore (_s : Store) : Store :=
  ({ token := none, user := none, isAuthenticated := false },
   { tokenSlot := none, userSlot := none })

/-- `setUser(user)`: writes the user slot and sets `{ user }`,
leaving `token` and `isAuthenticated` untouched. -/
def setUserStore (u : User) (s : Store) : Store :=
  ({ s.1 with user := some u }, { s.2 with userSlot := some u })

/-- One call to a store mutator, for reasoning about call sequences. -/
inductive AuthCall where
  | loginC (t : String) (u : User)
  | logoutC
  | setUserC (u : User)
deriving DecidableEq, Repr

/-- Apply one mutator call to a store snapshot. -/
def applyCall : AuthCall → Store → Store
  | .loginC t u, s => loginStore t u s
  | .logoutC, s => logoutStore s
  | .setUserC u, s => setUserStore u s

/-- Apply a sequence of mutator calls, oldest first. -/
def runCalls (cs : List AuthCall) (s : Store) : Store :=
  cs.foldl (fun s c => applyCall c s) s

/-- The spec's token/auth invariant: `isAuthenticated == (token != null)`. -/
def storeInv (s : Store) : Prop := s.1.isAuthenticated = s.1.token.isSome

/-- An axios error as observed by the client:
`status` is `error.response?.status` (`none` when no response arrived),
`message` is the `Error#message` string, `detail` is
`error.response?.data?.detail`. -/
structure ApiFailure where
  status : Option Nat
  message : String
  detail : Option String
deriving DecidableEq, Repr

/-- The response interceptor's test: `error.response?.status === 401`. -/
def is401 (e : ApiFailure) : Bool := e.status == some 401

/-- Store effect of the response interceptor on a failed response:
on a 401 it calls `useAuthStore.getState().logout()`, otherwise nothing. -/
def apply401 (s : Store) (e : ApiFailure) : Store :=
  if is401 e then logoutStore s else s

/-- The response interceptor of `lib/api.ts`: successful responses pass
through; a failure triggers `apply401` and is re-raised unchanged
(`Promise.reject(error)`). -/
def responseInterceptor (s : Store) :
    Except ApiFailure α → Store × Except ApiFailure α
  | .ok a => (s, .ok a)
  | .error e => (apply401 s e, .error e)

/-- `{access_token, token_type}` returned by `POST /auth/token`. -/
structure TokenResponse where
  access_token : String
  token_type : String
deriving DecidableEq, Repr

/-- The endpoints of the remote API reached through the shared `api`
axios instance. -/
inductive Endpoint where
  | authToken
  | authRegister
  | authMe
  | authProfile
  | authChangePassword
  | markets
  | marketsBuy
deriving DecidableEq, Repr

/-- An outbound request as seen by the request interceptor. -/
structure Request where
  endpoint : Endpoint
  authHeader : Option String
deriving DecidableEq, Repr

/-- The request interceptor of `lib/api.ts`: when the store token is truthy
(`if (token)`), set `Authorization: Bearer <token>`. -/
def requestInterceptor (tok : Option String) (r : Request) : Request :=
  match tok with
  | none => r
  | some t => if t == "" then r else { r with authHeader := some ("Bearer " ++ t) }

/-- One full call through the shared axios instance: build the request,
run the request interceptor against the store's current token, obtain the
server's response for that request, run the response interceptor. -/
def gatewayCall (ep : Endpoint) (respond : Request → Except ApiFailure α)
    (s : Store) : Store × Except ApiFailure α :=
  responseInterceptor s
    (respond (requestInterceptor s.1.token { endpoint := ep, authHeader := none }))

/-- The placeholder user built inline in `AuthPage.tsx` immediately after a
successful credential exchange: `id: 0`, the submitted username, zero
balance, `is_admin: false`, `avatar_url: null`, `theme: "dark"`,
`email_notifications: true`. -/
def placeholderUser (username : String) : User :=
  { id := 0
    username := username
    balance := 0
    is_admin := false
    avatar_url := none
    theme := .dark
    email_notifications := true }

/-- Outcome of a login or register form submission: the store it leaves
behind, the form's `error` string (empty means no error showing), and
whether `navigate("/")` ran. -/
structure FlowResult where
  store : Store
  errorMessage : String
  navigatedHome : Bool
deriving DecidableEq, Repr

/-- `LoginForm`'s `onError` handler: 401 maps to a fixed message, other
`Error`s surface `err.message` with a generic fallback for an empty one. -/
def loginFailureMessage (e : ApiFailure) : String :=
  if is401 e then "Invalid username or password."
  else if e.message == "" then "Login failed. Please try again."
  else e.message

/-- `RegisterForm.registerMutation`'s `onError` handler:
`err.message || "Registration failed. Username may already exist."`. -/
def registerFailureMessage (e : ApiFailure) : String :=
  if e.message == "" then "Registration failed. Username may already exist." else e.message

/-- The store right after Flow A's step 2: `login(data.access_token,
placeholderUser)` has run, the authoritative profile fetch has not. -/
def flowAAfterExchange (username : String) (tok : TokenResponse) (s : Store) : Store :=
  loginStore tok.access_token (placeholderUser username) s

/-- Shared body of `LoginForm.mutation.onSuccess` and
`RegisterForm.loginAfterRegister.onSuccess`: store the placeholder under the
fresh token, await `fetchCurrentUser()` (through the gateway, so a 401
response logs the store out before the empty `catch` swallows the error);
on fetch success call `login` again with the authoritative user; then
`navigate("/")` unconditionally. -/
def loginOnSuccess (username : String) (tok : TokenResponse)
    (fetchResp : Except ApiFailure User) (s : Store) : FlowResult :=
  match fetchResp with
  | .ok u =>
      { store := loginStore tok.access_token u (flowAAfterExchange username tok s)
        errorMessage := ""
        navigatedHome := true }
  | .error e =>
      { store := apply401 (flowAAfterExchange username tok s) e
        errorMessage := ""
        navigatedHome := true }

/-- Flow A (`LoginForm`): the credential exchange's failure passes through
the gateway's 401 interceptor and surfaces `loginFailureMessage`; its
success runs `loginOnSuccess`. `handleSubmit` cleared the error string
before the mutation, so an untouched error field is `""`. -/
def flowA (username : String) (loginResp : Except ApiFailure TokenResponse)
    (fetchResp : Except ApiFailure User) (s0 : Store) : FlowResult :=
  match loginResp with
  | .error e => { store := apply401 s0 e
                  errorMessage := loginFailureMessage e
                  navigatedHome := false }
  | .ok tok => loginOnSuccess username tok fetchResp s0

/-- Flow B (`RegisterForm.handleSubmit` and its two chained mutations):
local validation first (mismatch, then length), then the register call,
then on register success the login-after-register mutation, whose
`onError` surfaces the distinct account-created message. -/
def flowB (username password confirmPassword : String)
    (registerResp : Except ApiFailure User)
    (loginResp : Except ApiFailure TokenResponse)
    (fetchResp : Except ApiFailure User) (s0 : Store) : FlowResult :=
  if password ≠ confirmPassword then
    { store := s0, errorMessage := "Passwords do not match.", navigatedHome := false }
  else if password.length < 6 then
    { store := s0, errorMessage := "Password must be at least 6 characters.", navigatedHome := false }
  else
    match registerResp with
    | .error e => { store := apply401 s0 e
                    errorMessage := registerFailureMessage e
                    navigatedHome := false }
    | .ok _ =>
        match loginResp with
        | .error e => { store := apply401 s0 e
                        errorMessage := "Account created! Please sign in."
                        navigatedHome := false }
        | .ok tok => loginOnSuccess username tok fetchResp s0

/-- Outcome of Flow C: the store left behind and the `profileSuccess`
string (`""` when not set). -/
structure FlowCResult where
  store : Store
  profileSuccess : String
deriving DecidableEq, Repr

/-- Flow C (`ProfilePage.profileMutation`): `updateProfile` then, inside
`onSuccess`, `fetchCurrentUser` and `setUser(updatedUser)` plus the success
message. `profileMutation` has no `onError` handler and `onSuccess` does
not catch the fetch's rejection, so on any failure `setUser` never runs;
each response still passes through the gateway's 401 interceptor. -/
def flowC (updateResp : Except ApiFailure User)
    (fetchResp : Except ApiFailure User) (s0 : Store) : FlowCResult :=
  match updateResp with
  | .error e => { store := apply401 s0 e, profileSuccess := "" }
  | .ok _ =>
      match fetchResp with
      | .error e => { store := apply401 s0 e, profileSuccess := "" }
      | .ok u => { store := setUserStore u s0
                   profileSuccess := "Profile updated successfully!" }

/-- `{current_password, new_password}` body of `POST /auth/change-password`. -/
structure ChangePasswordRequest where
  current_password : String
  new_password : String
deriving DecidableEq, Repr

/-- Flow D's local step (`ProfilePage.handlePasswordChange`): clear the
error, check confirmation match then minimum length, and only if both pass
hand the request body to `passwordMutation.mutate`. Returns the request
sent over the network (`none` = no network call) and the local
`passwordError` string. -/
def handlePasswordChange (currentPassword newPassword confirmPassword : String) :
    Option ChangePasswordRequest × String :=
  if newPassword ≠ confirmPassword then
    (none, "New passwords do not match")
  else if newPassword.length < 6 then
    (none, "New password must be at least 6 characters")
  else
    (some { current_password := currentPassword, new_password := newPassword }, "")

/-- A 401 axios failure, as produced by bad credentials or an expired token. -/
def unauthorizedFailure : ApiFailure :=
  { status := some 401, message := "Request failed with status code 401", detail := none }

/-- A concrete reconciled user, as the server returns it (`id > 0`). -/
def aliceUser : User :=
  { id := 1
    username := "alice"
    balance := 1000
    is_admin := false
    avatar_url := none
    theme := .dark
    email_notifications := true }

/-- Each mutator re-establishes the token/auth invariant (`login`, `logout`)
or preserves both sides of it (`setUser`). -/
theorem storeInv_applyCall (c : AuthCall) (s : Store) (h : storeInv s) :
    storeInv (applyCall c s) := by
  cases c with
  | loginC t u => rfl
  | logoutC => rfl
  | setUserC u => exact h

/-- The token/auth invariant is preserved by any sequence of mutator calls. -/
theorem storeInv_runCalls (cs : List AuthCall) (s : Store) (h : storeInv s) :
    storeInv (runCalls cs s) := by
  induction cs generalizing s with
  | nil => exact h
  | cons c cs ih => exact ih _ (storeInv_applyCall c s h)

/-- C1: starting from the store's initial state, after every sequence of
`login`/`logout`/`setUser` calls the derived flag satisfies
`isAuthenticated = (token != null)` (every prefix of a sequence is itself a
sequence, so this gives the invariant after every call). -/
theorem c1_token_auth_invariant (cs : List AuthCall) :
    storeInv (runCalls cs initialStore) :=
  storeInv_runCalls cs initialStore rfl

/-- C2: whenever the server's response to a gateway call is a 401-equivalent
failure — for any endpoint, the credential-exchange endpoint included — the
response interceptor triggers `logout()` and re-raises the original failure
unchanged. -/
theorem c2_gateway_401_logout {α : Type} (ep : Endpoint) (s : Store) (e : ApiFailure)
    (respond : Request → Except ApiFailure α)
    (hresp : respond (requestInterceptor s.1.token { endpoint := ep, authHeader := none }) =
      Except.error e)
    (h401 : is401 e = true) :
    gatewayCall ep respond s = (logoutStore s, Except.error e) := by
  simp [gatewayCall, hresp, responseInterceptor, apply401, h401]

/-- Witness for C2: a 401 from the login endpoint itself logs the store out
and propagates the failure. -/
theorem c2_gateway_401_logout_witness :
    ((fun (_ : Request) => (Except.error unauthorizedFailure : Except ApiFailure Unit))
        (requestInterceptor initialStore.1.token
          { endpoint := Endpoint.authToken, authHeader := none }) =
      Except.error unauthorizedFailure) ∧
    is401 unauthorizedFailure = true ∧
    gatewayCall Endpoint.authToken
        (fun (_ : Request) => (Except.error unauthorizedFailure : Except ApiFailure Unit))
        initialStore =
      (logoutStore initialStore, Except.error unauthorizedFailure) :=
  ⟨rfl, rfl,
    c2_gateway_401_logout Endpoint.authToken initialStore unauthorizedFailure
      (fun _ => Except.error unauthorizedFailure) rfl rfl⟩

/-- C3: `login(t, u)` followed by a fresh initialization from the durable
storage it wrote reproduces `token = t` and `currentUser = u`. -/
theorem c3_persistence_round_trip (t : String) (u : User) (s : Store) :
    (initAuthState (loginStore t u s).2).token = some t ∧
    (initAuthState (loginStore t u s).2).user = some u :=
  ⟨rfl, rfl⟩

/-- C7: `logout()` is idempotent — running it twice leaves exactly the same
observable state (in-memory fields and both durable slots) as running it
once, and it is a total function, so it raises no failure. -/
theorem c7_logout_idempotent (s : Store) :
    logoutStore (logoutStore s) = logoutStore s := rfl

/-- Witness for C7 at a concrete logged-in store. -/
theorem c7_logout_idempotent_witness :
    logoutStore (logoutStore (loginStore "tok" aliceUser initialStore)) =
      logoutStore (loginStore "tok" aliceUser initialStore) :=
  c7_logout_idempotent (loginStore "tok" aliceUser initialStore)

/-- C9: `setUser(u)` overwrites `currentUser` and the durable user slot and
leaves `token`, `isAuthenticated` and the durable token slot untouched; and
Flow C's success path reconciles the profile exactly through `setUser`
(the final store is `setUserStore u s`, so authentication state is never
touched by `login`). -/
theorem c9_setUser_frame :
    (∀ (s : Store) (u : User),
      (setUserStore u s).1.token = s.1.token ∧
      (setUserStore u s).1.isAuthenticated = s.1.isAuthenticated ∧
      (setUserStore u s).2.tokenSlot = s.2.tokenSlot ∧
      (setUserStore u s).1.user = some u ∧
      (setUserStore u s).2.userSlot = some u) ∧
    (∀ (up u : User) (s : Store),
      flowC (Except.ok up) (Except.ok u) s =
        { store := setUserStore u s, profileSuccess := "Profile updated successfully!" }) :=
  ⟨fun _ _ => ⟨rfl, rfl, rfl, rfl, rfl⟩, fun _ _ _ => rfl⟩

/-- C10: the startup flag is computed from the truthiness of the stored
token (`!!getStoredToken()`), not its presence: a persisted empty-string
token initializes to `token = some ""` with `isAuthenticated = false`,
while `login("", u)` sets `isAuthenticated = true`; hence `login("", u)`
followed by re-initialization flips `isAuthenticated`, and the
`isAuthenticated = (token != null)` equivalence fails at startup. -/
theorem c10_empty_token_truthiness :
    (∀ us : Option User,
      initAuthState { tokenSlot := some "", userSlot := us } =
        { token := some "", user := us, isAuthenticated := false }) ∧
    (∀ (u : User) (s : Store), (loginStore "" u s).1.isAuthenticated = true) ∧
    (∀ (u : User) (s : Store),
      (initAuthState (loginStore "" u s).2).isAuthenticated = false) ∧
    (∀ us : Option User,
      ¬ storeInv (initStoreFrom { tokenSlot := some "", userSlot := us })) :=
  ⟨fun _ => rfl, fun _ _ => rfl, fun _ _ => rfl, fun _ h => Bool.noConfusion h⟩

/-- C4: in Flow B, when local validation passes, registration succeeds and
the immediately following credential exchange fails with the 401
equivalent, the flow resolves with `isAuthenticated = false` and surfaces
the distinct "Account created! Please sign in." message, not the generic
login-failure message. -/
theorem c4_flow_b_fallback (username password confirmPassword : String) (ru : User)
    (e : ApiFailure) (fetchResp : Except ApiFailure User) (s : Store)
    (hmatch : password = confirmPassword) (hlen : 6 ≤ password.length)
    (h401 : is401 e = true) :
    (flowB username password confirmPassword (Except.ok ru) (Except.error e)
        fetchResp s).store.1.isAuthenticated = false ∧
    (flowB username password confirmPassword (Except.ok ru) (Except.error e)
        fetchResp s).errorMessage = "Account created! Please sign in." ∧
    (flowB username password confirmPassword (Except.ok ru) (Except.error e)
        fetchResp s).errorMessage ≠ "Invalid username or password." := by
  have hne : ¬ password ≠ confirmPassword := fun hc => hc hmatch
  have hlt : ¬ password.length < 6 := Nat.not_lt.mpr hlen
  refine ⟨?_, ?_, ?_⟩ <;> simp [flowB, hne, hlt, apply401, h401, logoutStore]

/-- Witness for C4 at the spec's concrete scenario
(`register("alice","secret1")` succeeds, the automatic login gets a 401). -/
theorem c4_flow_b_fallback_witness :
    ("secret1" : String) = "secret1" ∧
    6 ≤ ("secret1" : String).length ∧
    is401 unauthorizedFailure = true ∧
    ((flowB "alice" "secret1" "secret1" (Except.ok aliceUser)
        (Except.error unauthorizedFailure) (Except.error unauthorizedFailure)
        initialStore).store.1.isAuthenticated = false ∧
     (flowB "alice" "secret1" "secret1" (Except.ok aliceUser)
        (Except.error unauthorizedFailure) (Except.error unauthorizedFailure)
        initialStore).errorMessage = "Account created! Please sign in." ∧
     (flowB "alice" "secret1" "secret1" (Except.ok aliceUser)
        (Except.error unauthorizedFailure) (Except.error unauthorizedFailure)
        initialStore).errorMessage ≠ "Invalid username or password.") :=
  ⟨rfl, by decide, rfl,
    c4_flow_b_fallback "alice" "secret1" "secret1" aliceUser unauthorizedFailure
      (Except.error unauthorizedFailure) initialStore rfl (by decide) rfl⟩

/-- C5 as stated is false: when the authoritative-profile fetch fails with
the 401 equivalent, the gateway's global logout clears `currentUser`
entirely, so `currentUser.id` is not left at the sentinel `0` even though
the fetch failed — the "if and only if" breaks at this input. -/
theorem c5_counterexample :
    ¬ (((flowA "alice" (Except.ok { access_token := "tok", token_type := "bearer" })
          (Except.error unauthorizedFailure) initialStore).store.1.user).map User.id =
          some 0 ↔
        (Except.error unauthorizedFailure : Except ApiFailure User).isOk = false) := by
  decide

/-- C5 amended: immediately after the credential exchange and before the
profile fetch, the store holds the placeholder (id 0, submitted username,
zero balance, not admin, default preferences) with `isAuthenticated =
true`; after Flow A completes, `currentUser` is the authoritative user when
the fetch succeeded, is left at the id-0 placeholder when the fetch failed
with a non-401 failure, and is cleared to `null` (by the gateway's global
logout) when the fetch failed with the 401 equivalent. -/
theorem c5_amended_placeholder_sentinel :
    (∀ (username : String) (tok : TokenResponse) (s : Store),
      (flowAAfterExchange username tok s).1.user = some (placeholderUser username) ∧
      (flowAAfterExchange username tok s).1.isAuthenticated = true ∧
      (flowAAfterExchange username tok s).1.token = some tok.access_token ∧
      (placeholderUser username).id = 0 ∧
      (placeholderUser username).username = username ∧
      (placeholderUser username).balance = 0 ∧
      (placeholderUser username).is_admin = false ∧
      (placeholderUser username).avatar_url = none ∧
      (placeholderUser username).theme = Theme.dark ∧
      (placeholderUser username).email_notifications = true) ∧
    (∀ (username : String) (tok : TokenResponse) (u : User) (s : Store),
      (loginOnSuccess username tok (Except.ok u) s).store.1.user = some u) ∧
    (∀ (username : String) (tok : TokenResponse) (e : ApiFailure) (s : Store),
      (loginOnSuccess username tok (Except.error e) s).store.1.user =
        if is401 e then none else some (placeholderUser username)) := by
  refine ⟨fun _ _ _ => ⟨rfl, rfl, rfl, rfl, rfl, rfl, rfl, rfl, rfl, rfl⟩,
    fun _ _ _ _ => rfl, fun username tok e s => ?_⟩
  by_cases h : is401 e <;>
    simp [loginOnSuccess, apply401, h, logoutStore, flowAAfterExchange, loginStore]

/-- C6 as stated is false: when the profile fetch fails with the 401
equivalent, the token is not retained and the placeholder is not kept (the
gateway's global logout clears both), although navigation still occurs. -/
theorem c6_counterexample :
    (loginOnSuccess "alice" { access_token := "tok", token_type := "bearer" }
        (Except.error unauthorizedFailure) initialStore).store.1.token ≠ some "tok" ∧
    (loginOnSuccess "alice" { access_token := "tok", token_type := "bearer" }
        (Except.error unauthorizedFailure) initialStore).store.1.user ≠
      some (placeholderUser "alice") ∧
    (loginOnSuccess "alice" { access_token := "tok", token_type := "bearer" }
        (Except.error unauthorizedFailure) initialStore).navigatedHome = true := by
  decide

/-- C6 amended: after a successful credential exchange, navigation to the
authenticated landing view occurs and no error is surfaced regardless of
the profile fetch's outcome; when the fetch fails with a non-401 failure
the placeholder and the token are kept, but when it fails with the 401
equivalent the gateway's global logout clears the session. -/
theorem c6_amended_fetch_failure :
    (∀ (username : String) (tok : TokenResponse)
        (fetchResp : Except ApiFailure User) (s : Store),
      (loginOnSuccess username tok fetchResp s).navigatedHome = true ∧
      (loginOnSuccess username tok fetchResp s).errorMessage = "") ∧
    (∀ (username : String) (tok : TokenResponse) (e : ApiFailure) (s : Store),
      (loginOnSuccess username tok (Except.error e) s).store =
        if is401 e then logoutStore (flowAAfterExchange username tok s)
        else flowAAfterExchange username tok s) := by
  refine ⟨fun username tok fetchResp s => ?_, fun username tok e s => rfl⟩
  cases fetchResp <;> exact ⟨rfl, rfl⟩

/-- C8: in Flow D, a submission whose new password and confirmation differ,
or whose new password is shorter than 6 characters, aborts with a local
validation error and never issues the change-password network call. -/
theorem c8_local_validation_short_circuits (cur np cp : String)
    (h : np ≠ cp ∨ np.length < 6) :
    (handlePasswordChange cur np cp).1 = none ∧
    (handlePasswordChange cur np cp).2 ≠ "" := by
  unfold handlePasswordChange
  rcases h with h | h
  · simp [h]
  · by_cases hm : np ≠ cp
    · simp [hm]
    · simp [hm, h]

/-- Witness for C8: a 5-character new password is rejected locally. -/
theorem c8_local_validation_short_circuits_witness :
    (("short" : String) ≠ "short" ∨ ("short" : String).length < 6) ∧
    ((handlePasswordChange "oldpw" "short" "short").1 = none ∧
     (handlePasswordChange "oldpw" "short" "short").2 ≠ "") :=
  ⟨Or.inr (by decide),
    c8_local_validation_short_circuits "oldpw" "short" "short" (Or.inr (by decide))⟩

end Polymock
